import Mathlib

set_option maxHeartbeats 1000000
set_option maxRecDepth 40000

/-!
# Verification of `ble-hrs-server` against its specification

Shallow embedding of the parts of `ble_hrs_server` that the claims are
about, together with the theorems settling those claims:

* the Heart Rate Measurement frame decoder (`parse_hrm_pkg` in
  `conn.py`, `parse_val` in `data.py`);
* the notification callback `BLEHRSConnection._notify_callback_func`;
* the supervising reconnect loop `BaseBLEConnection._reconnect_task_func`
  together with `shutdown`, modelled as an explicit transition system;
* the streaming adapter `BLEHRSConnection.iter`;
* the Event Bus channel (`Signal`), modelled from the spec because its
  implementation lives in the external `cookit` dependency.

Python `bytearray` values are embedded as `List Nat` whose elements are
below 256; an out-of-range index access, which raises `IndexError` in
Python (the spec's `MalformedFrame`), is embedded as `Option.none`.
-/

/-- `HRMData` from `conn.py` / `data.py`: the decoded reading.
`sensor_contact = none` is the "unsupported" value. -/
structure HRMData where
  heart_rate : Nat
  sensor_contact : Option Bool
  deriving DecidableEq, Repr

/-- `parse_hrm_pkg` from `conn.py`.  A failing index access (Python
`IndexError`) is returned as `none`. -/
def parse_hrm_pkg (pkg : List Nat) : Option HRMData :=
  match pkg[0]? with
  | none => none
  | some flag =>
    let rate_is_u16 := flag &&& 0b00001 != 0
    let sensor_contact_supported := flag &&& 0b00100 != 0
    let sensor_contact :=
      if sensor_contact_supported then some (flag &&& 0b00010 != 0) else none
    match pkg[1]? with
    | none => none
    | some hr =>
      if rate_is_u16 then
        match pkg[2]? with
        | none => none
        | some b2 => some ⟨hr ||| (b2 <<< 8), sensor_contact⟩
      else
        some ⟨hr, sensor_contact⟩

/-- `parse_val` from `data.py`.  A failing index access (Python
`IndexError`) is returned as `none`. -/
def parse_val (val : List Nat) : Option HRMData :=
  match val[0]? with
  | none => none
  | some flag =>
    let rate_is_u16 := flag &&& 0b00001 != 0
    let sensor_contact_supported := flag &&& 0b00100 != 0
    let sensor_contact :=
      if sensor_contact_supported then some (flag &&& 0b00010 != 0) else none
    match val[1]? with
    | none => none
    | some hr =>
      if rate_is_u16 then
        match val[2]? with
        | none => none
        | some b2 => some ⟨hr ||| (b2 <<< 8), sensor_contact⟩
      else
        some ⟨hr, sensor_contact⟩

/-- For bytes, `or`-ing with a value shifted left by 8 is addition:
the bit ranges are disjoint. -/
lemma lor_shiftLeft_eq_add {a b : Nat} (ha : a < 256) (hb : b < 256) :
    a ||| (b <<< 8) = a + 256 * b := by
  have h : ∀ a : Nat, a < 256 → ∀ b : Nat, b < 256 →
      a ||| (b <<< 8) = a + 256 * b := by decide
  exact h a ha b hb

/-- C1: for every frame whose length is at least 2 (at least 3 when bit 0
of the flags byte is set) and whose entries are bytes, the decoder returns
a reading whose `heart_rate` is byte 1 (unsigned 8-bit) when bit 0 of the
flags byte is clear and bytes 1-2 as a little-endian unsigned 16-bit value
when bit 0 is set, and whose `sensor_contact` is the boolean value of
bit 1 when bit 2 is set and `none` ("unsupported") when bit 2 is clear;
moreover all other bits of the flags byte have no effect on the result
(frames whose flags bytes agree on bits 0-2 decode identically). -/
theorem parse_hrm_pkg_correct (pkg : List Nat)
    (hlen : 2 ≤ pkg.length)
    (hbytes : ∀ b ∈ pkg, b < 256)
    (hlen16 : pkg.getD 0 0 &&& 1 ≠ 0 → 3 ≤ pkg.length) :
    parse_hrm_pkg pkg = some
      { heart_rate :=
          if pkg.getD 0 0 &&& 1 ≠ 0 then pkg.getD 1 0 + 256 * pkg.getD 2 0
          else pkg.getD 1 0
        sensor_contact :=
          if pkg.getD 0 0 &&& 4 ≠ 0 then some (pkg.getD 0 0 &&& 2 != 0)
          else none } ∧
    (∀ f g rest, f &&& 7 = g &&& 7 →
      parse_hrm_pkg (f :: rest) = parse_hrm_pkg (g :: rest)) := by
  constructor
  · match pkg with
    | [] => simp at hlen
    | [f] => simp at hlen
    | [f, b1] =>
      by_cases h16 : f % 2 = 1
      · have h3 := hlen16 (by simp [Nat.and_one_is_mod, h16])
        simp at h3
      · simp [parse_hrm_pkg, Nat.and_one_is_mod, h16]
    | f :: b1 :: b2 :: rest =>
      have hb1 : b1 < 256 := hbytes b1 (by simp)
      have hb2 : b2 < 256 := hbytes b2 (by simp)
      by_cases h16 : f % 2 = 1
      · simp [parse_hrm_pkg, Nat.and_one_is_mod, h16,
          lor_shiftLeft_eq_add hb1 hb2]
      · simp [parse_hrm_pkg, Nat.and_one_is_mod, h16]
  · intro f g rest hfg
    have h1 : f &&& 1 = g &&& 1 := by
      have h := congrArg (fun x => x &&& 1) hfg
      simpa only [Nat.land_assoc, (by decide : (7 : Nat) &&& 1 = 1)] using h
    have h2 : f &&& 2 = g &&& 2 := by
      have h := congrArg (fun x => x &&& 2) hfg
      simpa only [Nat.land_assoc, (by decide : (7 : Nat) &&& 2 = 2)] using h
    have h4 : f &&& 4 = g &&& 4 := by
      have h := congrArg (fun x => x &&& 4) hfg
      simpa only [Nat.land_assoc, (by decide : (7 : Nat) &&& 4 = 4)] using h
    simp only [parse_hrm_pkg, List.getElem?_cons_zero, List.getElem?_cons_succ,
      h1, h2, h4]

/-- Witness for C1 at the concrete frame `[7, 60, 0]`. -/
theorem parse_hrm_pkg_correct_witness :
    parse_hrm_pkg [7, 60, 0] = some ⟨60, some true⟩ := by
  have h := (parse_hrm_pkg_correct [7, 60, 0] (by decide) (by decide)
    (fun _ => by decide)).1
  rw [h]; decide

/-- C2 counterexample: the spec's second test vector is wrong on the code.
Flags byte `0b101 = 5` has bit 2 set, so decoding `[5, 0x2C, 0x01]` yields
`sensor_contact = some false`, not `none` as the claim states. -/
theorem decode_vector2_cex :
    parse_hrm_pkg [5, 0x2C, 0x01] = some ⟨300, some false⟩ ∧
    parse_hrm_pkg [5, 0x2C, 0x01] ≠ some ⟨300, none⟩ := by decide

/-- C2 (amended): vectors 1 and 3 decode as claimed; for `[5, 0x2C, 0x01]`
(flags `0b101`: bit 2 set, bit 1 clear) the decoder yields `heart_rate 300`
and `sensor_contact = some false`; for `[3, 60, 0]` (flags `0b011`: bit 2
clear) it yields `sensor_contact = none`. -/
theorem decode_test_vectors :
    parse_hrm_pkg [0, 75] = some ⟨75, none⟩ ∧
    parse_hrm_pkg [5, 0x2C, 0x01] = some ⟨300, some false⟩ ∧
    parse_hrm_pkg [7, 60, 0] = some ⟨60, some true⟩ ∧
    parse_hrm_pkg [3, 60, 0] = some ⟨60, none⟩ := by decide

/-- C3: decoding fails (the Python code raises `IndexError`, the spec's
`MalformedFrame`) exactly for frames of length 0 or 1 and for frames of
length 2 whose flags byte has bit 0 set; for every frame meeting the
length precondition it succeeds. -/
theorem parse_hrm_pkg_fail_iff (pkg : List Nat) :
    parse_hrm_pkg pkg = none ↔
      pkg.length < 2 ∨ (pkg.length = 2 ∧ pkg.getD 0 0 &&& 1 ≠ 0) := by
  match pkg with
  | [] => simp [parse_hrm_pkg]
  | [f] => simp [parse_hrm_pkg]
  | [f, b1] =>
    by_cases h16 : f % 2 = 1
    · simp [parse_hrm_pkg, Nat.and_one_is_mod, h16]
    · simp [parse_hrm_pkg, Nat.and_one_is_mod, h16]
  | f :: b1 :: b2 :: rest =>
    by_cases h16 : f % 2 = 1
    · simp [parse_hrm_pkg, Nat.and_one_is_mod, h16]
    · simp [parse_hrm_pkg, Nat.and_one_is_mod, h16]

/-- C10: the two decoder functions, `parse_hrm_pkg` in `conn.py` and
`parse_val` in `data.py`, are extensionally equal: on every input they
return the same reading, and in particular they fail (return `none`) on
exactly the same inputs. -/
theorem parse_val_eq_parse_hrm_pkg : ∀ v, parse_val v = parse_hrm_pkg v :=
  fun _ => rfl

/-!
## Notification callback (`BLEHRSConnection._notify_callback_func`)

The callback first returns early when `data_received_sig.slots` is empty,
then takes a timestamp, then decodes — with no exception handling around
the decoder, so a failing decode (Python `IndexError`) propagates out of
the callback.  `Except.ok none` models a silent early return,
`Except.ok (some (d, t))` models publishing `(d, t)` on `data_received`,
and `Except.error ()` models an exception escaping the callback.
`slots` models the channel's subscriber list by handler identity.
-/

def notify_callback_func (slots : List Nat) (t : Nat) (val : List Nat) :
    Except Unit (Option (HRMData × Nat)) :=
  if slots.isEmpty then Except.ok none
  else
    match parse_hrm_pkg val with
    | none => Except.error ()
    | some data => Except.ok (some (data, t))

/-- C4 counterexample: with one subscriber on `data_received` and the
malformed (empty) frame, the callback raises — the decode error escapes
the callback instead of the notification being dropped silently. -/
theorem notify_malformed_raises_cex :
    notify_callback_func [0] 0 [] = Except.error () ∧
    notify_callback_func [0] 0 [] ≠ Except.ok none :=
  ⟨rfl, fun h => Except.noConfusion h⟩

/-- C4 (amended): when an inbound notification carries a malformed frame,
no `data_received` event is published for it; with no subscribers the
notification is dropped silently, but with at least one subscriber the
decode error propagates out of the notification callback.  Each
notification is handled by an independent callback invocation, so later
notifications are still processed. -/
theorem notify_malformed_no_publish (slots : List Nat) (t : Nat)
    (val : List Nat) (hmal : parse_hrm_pkg val = none) :
    (∀ d ts, notify_callback_func slots t val ≠ Except.ok (some (d, ts))) ∧
    (slots = [] → notify_callback_func slots t val = Except.ok none) ∧
    (slots ≠ [] → notify_callback_func slots t val = Except.error ()) := by
  refine ⟨fun d ts => ?_, fun h => ?_, fun h => ?_⟩
  · cases hs : slots.isEmpty <;> simp [notify_callback_func, hs, hmal]
  · simp [notify_callback_func, h]
  · have hs : slots.isEmpty = false := by
      cases slots with
      | nil => exact absurd rfl h
      | cons a l => rfl
    simp [notify_callback_func, hs, hmal]

/-- Witness for C4 (amended) at one subscriber, timestamp 5 and the
length-1 frame `[9]`. -/
theorem notify_malformed_no_publish_witness :
    notify_callback_func [1, 2] 5 [9] = Except.error () :=
  (notify_malformed_no_publish [1, 2] 5 [9] (by decide)).2.2 (by decide)

/-!
## Connection state machine
(`BaseBLEConnection._reconnect_task_func` / `start` / `shutdown`)

The supervising loop in `conn.py` is embedded as an explicit transition
system.  The `client` field follows the source exactly: it is assigned a
fresh, not-yet-connected handle at the top of every loop iteration
(*before* the connect attempt), it is left in place when the connect
attempt fails (through the retry sleep and into the next iteration), and
it is nulled only in the link-loss branch and in `shutdown`.

* `Phase.idle` — before `start()` and after `shutdown()`;
* `Phase.mkClient` — top of the loop, about to build a fresh handle;
* `Phase.attempt` — fresh handle built, `connecting` published,
  `client.connect()` in flight;
* `Phase.preparing` — connect succeeded, `connected` published,
  `_prepare` running;
* `Phase.prepared` — `prepared` published, awaiting the disconnect event;
* `Phase.sleepFail` — connect failed, `connect_failed` published,
  sleeping `retry_interval`;
* `Phase.sleepLost` — link lost, `client` nulled, `connection_lost`
  published, sleeping `retry_interval`.

`client = some b` models a live handle whose `is_connected` is `b`;
`sessionActive` is a ghost flag meaning "a connect attempt has succeeded
and the resulting session has not yet been torn down".  `clock` advances
by `retry_interval` at each retry sleep; every published signal is
recorded with the clock value at which it fired.  A failing `_prepare`
(the fatal `UnsupportedDevice` path) crashes the loop; `start()` then runs
`shutdown()` in its `finally` block, which the `prepFail` transition
models directly.  The defensive disconnect at the top of the loop is a
no-op in every reachable state (a connected leftover handle never reaches
`mkClient`), so it has no transition of its own.
-/

inductive SigEvent where
  | starting | connecting | connect_failed | connected | prepared
  | connection_lost | shutting_down
  deriving DecidableEq, Repr

inductive Phase where
  | idle | mkClient | attempt | preparing | prepared | sleepFail | sleepLost
  deriving DecidableEq, Repr

structure ConnState where
  phase : Phase
  client : Option Bool
  taskAlive : Bool
  sessionActive : Bool
  clock : Nat
  events : List (SigEvent × Nat)
  deriving DecidableEq, Repr

/-- `BaseBLEConnection.started`: `bool(self._reconnect_task)`. -/
def started (s : ConnState) : Bool :=
  s.taskAlive

/-- `BaseBLEConnection.shutdown`: publishes `shutting_down`, cancels the
supervising task (a no-op when there is none), nulls `_reconnect_task`,
nulls `client` and disconnects the old handle if it was connected.  It is
a total function: no input state makes it fail. -/
def shutdown (s : ConnState) : ConnState :=
  { phase := Phase.idle
    client := none
    taskAlive := false
    sessionActive := false
    clock := s.clock
    events := s.events ++ [(SigEvent.shutting_down, s.clock)] }

inductive ConnInput where
  | start | mk | connectOk | connectFail | prepOk | prepFail | linkLoss
  | tick | shutdownCall
  deriving DecidableEq, Repr

/-- One transition of the supervising loop, driven by `retry_interval`
`ri` and an input (the scheduler resuming the loop, the connect attempt
resolving, `_prepare` resolving, the disconnect callback firing, a retry
sleep elapsing, or a `shutdown()` call).  Inputs that cannot occur in the
current phase leave the state unchanged. -/
def step (ri : Nat) (s : ConnState) (i : ConnInput) : ConnState :=
  match s.phase, i with
  | Phase.idle, ConnInput.start =>
      { s with phase := Phase.mkClient, taskAlive := true
               events := s.events ++ [(SigEvent.starting, s.clock)] }
  | Phase.mkClient, ConnInput.mk =>
      { s with phase := Phase.attempt, client := some false
               events := s.events ++ [(SigEvent.connecting, s.clock)] }
  | Phase.attempt, ConnInput.connectFail =>
      { s with phase := Phase.sleepFail
               events := s.events ++ [(SigEvent.connect_failed, s.clock)] }
  | Phase.attempt, ConnInput.connectOk =>
      { s with phase := Phase.preparing, client := some true
               sessionActive := true
               events := s.events ++ [(SigEvent.connected, s.clock)] }
  | Phase.preparing, ConnInput.prepOk =>
      { s with phase := Phase.prepared
               events := s.events ++ [(SigEvent.prepared, s.clock)] }
  | Phase.preparing, ConnInput.prepFail => shutdown s
  | Phase.prepared, ConnInput.linkLoss =>
      { s with phase := Phase.sleepLost, client := none
               sessionActive := false
               events := s.events ++ [(SigEvent.connection_lost, s.clock)] }
  | Phase.sleepFail, ConnInput.tick =>
      { s with phase := Phase.mkClient, clock := s.clock + ri }
  | Phase.sleepLost, ConnInput.tick =>
      { s with phase := Phase.mkClient, clock := s.clock + ri }
  | _, ConnInput.shutdownCall => shutdown s
  | _, _ => s

/-- A fresh `Connection`: not started, no client, nothing published. -/
def initConn : ConnState :=
  { phase := Phase.idle, client := none, taskAlive := false
    sessionActive := false, clock := 0, events := [] }

/-- Running the machine over a list of inputs. -/
def runConn (ri : Nat) (s : ConnState) (l : List ConnInput) : ConnState :=
  l.foldl (step ri) s

/-- C5 counterexample: after `start()`, client creation and one failed
connect attempt, `client` is non-null although no connect attempt has
succeeded (`sessionActive` is false) — the code assigns `client` a fresh
handle *before* attempting to connect and leaves it in place when the
attempt fails, contradicting "client is non-null only while a connect
attempt has succeeded". -/
theorem client_nonnull_without_success_cex :
    (runConn 1 initConn
      [ConnInput.start, ConnInput.mk, ConnInput.connectFail]).client
        = some false ∧
    (runConn 1 initConn
      [ConnInput.start, ConnInput.mk, ConnInput.connectFail]).sessionActive
        = false := by decide

/-- Reachable-state invariant on `client` (the amended C5): `client` is
null before `start()` and after `shutdown()` and after link-loss handling
(`idle`, `sleepLost`); it is non-null and *disconnected*, with no session
active, throughout a connect attempt and after a failed attempt
(`attempt`, `sleepFail`, and possibly still at the top of the next
iteration in `mkClient`); it is non-null and connected, with the session
active, exactly from connect success to loss or teardown (`preparing`,
`prepared`). -/
def clientInvB (s : ConnState) : Bool :=
  match s.phase with
  | Phase.idle => s.client == none && s.sessionActive == false
  | Phase.sleepLost => s.client == none && s.sessionActive == false
  | Phase.mkClient =>
      (s.client == none || s.client == some false) && s.sessionActive == false
  | Phase.attempt => s.client == some false && s.sessionActive == false
  | Phase.sleepFail => s.client == some false && s.sessionActive == false
  | Phase.preparing => s.client == some true && s.sessionActive == true
  | Phase.prepared => s.client == some true && s.sessionActive == true

lemma clientInvB_step (ri : Nat) (s : ConnState) (i : ConnInput)
    (h : clientInvB s = true) : clientInvB (step ri s i) = true := by
  rcases s with ⟨ph, cl, ta, sa, ck, ev⟩
  cases ph <;> cases i <;>
    simp_all [clientInvB, step, shutdown]

/-- C5 (amended): in every reachable state of a Connection, `client` is
null exactly before `start()`, after `shutdown()` (also the one run by
`start()` when `_prepare` fails fatally) and after link-loss handling;
during a connect attempt and after a failed attempt it is non-null but
disconnected with no session active; and it is non-null and connected
exactly while a connect attempt has succeeded and the session has not yet
been torn down. -/
theorem client_invariant_reachable (ri : Nat) (l : List ConnInput) :
    clientInvB (runConn ri initConn l) = true := by
  have h : ∀ s, clientInvB s = true →
      clientInvB (runConn ri s l) = true := by
    induction l with
    | nil => exact fun s hs => hs
    | cons i t ih =>
        exact fun s hs => ih (step ri s i) (clientInvB_step ri s i hs)
  exact h initConn (by decide)

/-!
## Retry behaviour under a connect that always fails (C6)

An iteration of the supervising loop against a client whose `connect()`
always fails is the input block `[mk, connectFail, tick]`: build a fresh
handle and publish `connecting`, fail the attempt and publish
`connect_failed`, then sleep `retry_interval`.
-/

def failInputs : Nat → List ConnInput
  | 0 => []
  | n + 1 =>
      failInputs n ++ [ConnInput.mk, ConnInput.connectFail, ConnInput.tick]

/-- The Connection after `start()` and `n` loop iterations against a
client whose `connect()` always fails. -/
def failRun (ri n : Nat) : ConnState :=
  runConn ri initConn (ConnInput.start :: failInputs n)

lemma failRun_spec (ri n : Nat) :
    (failRun ri n).phase = Phase.mkClient ∧
    (failRun ri n).taskAlive = true ∧
    (failRun ri n).clock = n * ri ∧
    ((failRun ri n).events.filter
        (fun p => p.1 == SigEvent.connect_failed)).map Prod.snd
      = (List.range n).map (fun k => k * ri) ∧
    (failRun ri n).events.filter (fun p => p.1 == SigEvent.prepared)
      = [] := by
  induction n with
  | zero =>
      refine ⟨?_, ?_, ?_, ?_, ?_⟩ <;>
        simp [failRun, failInputs, runConn, step, initConn]
  | succ n ih =>
      obtain ⟨hph, hta, hck, hcf, hpr⟩ := ih
      have hstep : failRun ri (n + 1) = runConn ri (failRun ri n)
          [ConnInput.mk, ConnInput.connectFail, ConnInput.tick] := by
        show runConn ri initConn _ = _
        rw [failInputs, ← List.cons_append]
        exact List.foldl_append _ _ _ _
      rcases hfr : failRun ri n with ⟨ph, cl, ta, sa, ck, ev⟩
      rw [hfr] at hph hta hck hcf hpr hstep
      simp only at hph hta hck hcf hpr
      subst hph hta hck
      have hrun : runConn ri
          ⟨Phase.mkClient, cl, true, sa, n * ri, ev⟩
          [ConnInput.mk, ConnInput.connectFail, ConnInput.tick]
          = ⟨Phase.mkClient, some false, true, sa, n * ri + ri,
              ev ++ [(SigEvent.connecting, n * ri)]
                 ++ [(SigEvent.connect_failed, n * ri)]⟩ := rfl
      rw [hstep, hrun]
      refine ⟨rfl, rfl, by rw [Nat.succ_mul], ?_, ?_⟩
      · simp only [List.filter_append, List.map_append, hcf]
        simp [List.range_succ]
      · simp only [List.filter_append, hpr]
        simp

/-- C6: with a client whose `connect()` always fails, after `start()`
every iteration of the supervising loop publishes `connect_failed`: after
`n` iterations it has fired `n` times, at clock values `0, ri, 2·ri, …`
— consecutive firings separated by at least `retry_interval` —
while `prepared` has never fired, the supervising task is still alive and
the loop is back at the top, about to retry; this holds for every `n`, so
the retrying continues indefinitely and connect failure is never fatal. -/
theorem connect_fail_retries_forever (ri n : Nat) :
    ((failRun ri n).events.filter
        (fun p => p.1 == SigEvent.connect_failed)).map Prod.snd
      = (List.range n).map (fun k => k * ri) ∧
    ((failRun ri n).events.filter
        (fun p => p.1 == SigEvent.connect_failed)).length = n ∧
    (failRun ri n).events.filter (fun p => p.1 == SigEvent.prepared)
      = [] ∧
    started (failRun ri n) = true ∧
    (failRun ri n).phase = Phase.mkClient ∧
    List.Chain' (fun a b => a + ri ≤ b)
      (((failRun ri n).events.filter
        (fun p => p.1 == SigEvent.connect_failed)).map Prod.snd) := by
  obtain ⟨hph, hta, hck, hcf, hpr⟩ := failRun_spec ri n
  refine ⟨hcf, ?_, hpr, hta, hph, ?_⟩
  · have := congrArg List.length hcf
    simpa using this
  · rw [hcf, List.chain'_map]
    cases n with
    | zero => simp
    | succ m =>
        rw [List.chain'_range_succ]
        intro k _
        rw [Nat.succ_mul]

/-!
## Idempotent shutdown (C7)
-/

/-- The non-event part of a Connection's state. -/
def connCore (s : ConnState) : Phase × Option Bool × Bool × Bool × Nat :=
  (s.phase, s.client, s.taskAlive, s.sessionActive, s.clock)

/-- C7: `shutdown()` is a total function of the Connection state (no
input state makes it fail — the task cancel and the disconnect are both
guarded), `started` is false after the first call and still false after a
second call, and the second call changes nothing in the Connection's
state beyond publishing `shutting_down` again: `shutdown` is idempotent
on the non-event state. -/
theorem shutdown_idempotent (s : ConnState) :
    started (shutdown s) = false ∧
    started (shutdown (shutdown s)) = false ∧
    connCore (shutdown (shutdown s)) = connCore (shutdown s) :=
  ⟨rfl, rfl, rfl⟩

/-!
## Streaming adapter (`BLEHRSConnection.iter`)

`iter` returns immediately (an empty sequence, no subscriptions taken)
when the connection is not connected.  Otherwise it appends one fresh
handler to `data_received_sig.slots` (relaying into the queue) and one to
`connection_lost_sig.slots` (putting the end-of-stream marker `None`),
pulls from the queue yielding each item and stopping at the first `None`,
and in its `finally` block removes both handlers again with Python
`list.remove`, which deletes the first matching registration — this runs
on normal exhaustion and on early abandonment alike.

The queue contents over one consumption are embedded as a `List QItem`
(`QItem.eos` is the `None` end-of-stream marker put by the
`connection_lost` handler); the subscriber lists of the two channels are
embedded as lists of handler identities.
-/

inductive QItem where
  | item (d : HRMData) (t : Nat)
  | eos
  deriving DecidableEq, Repr

/-- The consumption loop of `iter`: yield queue items until the first
end-of-stream marker. -/
def iterConsume : List QItem → List (HRMData × Nat)
  | [] => []
  | QItem.eos :: _ => []
  | QItem.item d t :: rest => (d, t) :: iterConsume rest

/-- The subscriber lists of `data_received_sig` and
`connection_lost_sig`, by handler identity. -/
structure SubState where
  dataSlots : List Nat
  lostSlots : List Nat
  deriving DecidableEq, Repr

/-- `iter`'s two `connect` decorator calls: append the fresh `_recv` and
`_lost` handlers. -/
def iterSubs (s : SubState) (hd hl : Nat) : SubState :=
  ⟨s.dataSlots ++ [hd], s.lostSlots ++ [hl]⟩

/-- `iter`'s `finally` block: `slots.remove(handler)` on both channels,
deleting the first matching registration. -/
def iterCleanup (s : SubState) (hd hl : Nat) : SubState :=
  ⟨s.dataSlots.erase hd, s.lostSlots.erase hl⟩

/-- One full `iter` consumption: the yielded sequence and the final
subscriber lists.  `connected = false` models the early return.  `hd` and
`hl` are the identities of the two fresh handlers; `q` is the sequence of
values put on the queue during the consumption. -/
def iter (connected : Bool) (s : SubState) (hd hl : Nat) (q : List QItem) :
    List (HRMData × Nat) × SubState :=
  if connected then
    (iterConsume q, iterCleanup (iterSubs s hd hl) hd hl)
  else
    ([], s)

lemma iterConsume_eos (pre post : List QItem) (hpre : QItem.eos ∉ pre) :
    iterConsume (pre ++ QItem.eos :: post)
      = pre.map (fun x => match x with
          | QItem.item d t => (d, t)
          | QItem.eos => (⟨0, none⟩, 0)) := by
  induction pre with
  | nil => rfl
  | cons x rest ih =>
      match x with
      | QItem.eos => exact absurd (by simp) hpre
      | QItem.item d t =>
          simp only [List.cons_append, iterConsume, List.map_cons]
          exact congrArg _ (ih (fun h => hpre (List.mem_cons_of_mem _ h)))

/-- C8: when the `connection_lost` marker is put on the queue during an
in-progress `iter` consumption, the sequence terminates: it yields
exactly the items queued before the marker and nothing queued after it;
and on any termination of any consumption — normal exhaustion, early
abandonment, or the not-connected early return — both subscriptions are
removed again, so the subscriber lists (in particular the subscriber
counts) of `data_received_sig` and `connection_lost_sig` return to their
values from before `iter` was called.  The freshness hypotheses say the
two handlers created by this `iter` call are new registrations. -/
theorem iter_terminates_and_cleans (connected : Bool) (s : SubState)
    (hd hl : Nat) (pre post q : List QItem)
    (hhd : hd ∉ s.dataSlots) (hhl : hl ∉ s.lostSlots)
    (hpre : QItem.eos ∉ pre) :
    (iter true s hd hl (pre ++ QItem.eos :: post)).fst
      = pre.map (fun x => match x with
          | QItem.item d t => (d, t)
          | QItem.eos => (⟨0, none⟩, 0)) ∧
    (iter connected s hd hl q).snd = s ∧
    (iter connected s hd hl q).snd.dataSlots.length = s.dataSlots.length ∧
    (iter connected s hd hl q).snd.lostSlots.length = s.lostSlots.length := by
  have hclean : iterCleanup (iterSubs s hd hl) hd hl = s := by
    rcases s with ⟨ds, ls⟩
    simp only [iterSubs, iterCleanup]
    rw [List.erase_append_right _ hhd, List.erase_append_right _ hhl]
    simp
  refine ⟨?_, ?_, ?_, ?_⟩
  · simpa [iter] using iterConsume_eos pre post hpre
  · cases connected <;> simp [iter, hclean]
  · cases connected <;> simp [iter, hclean]
  · cases connected <;> simp [iter, hclean]

/-- Witness for C8: a connected consumption over a queue holding one
reading, the loss marker, then one late reading, against channels that
already had one subscriber each. -/
theorem iter_terminates_and_cleans_witness :
    (iter true ⟨[9], [8]⟩ 1 2
      ([QItem.item ⟨75, none⟩ 10] ++ QItem.eos
        :: [QItem.item ⟨60, none⟩ 11])).fst = [(⟨75, none⟩, 10)] ∧
    (iter true ⟨[9], [8]⟩ 1 2
      ([QItem.item ⟨75, none⟩ 10] ++ QItem.eos
        :: [QItem.item ⟨60, none⟩ 11])).snd = ⟨[9], [8]⟩ := by
  have h := iter_terminates_and_cleans true ⟨[9], [8]⟩ 1 2
    [QItem.item ⟨75, none⟩ 10] [QItem.item ⟨60, none⟩ 11]
    ([QItem.item ⟨75, none⟩ 10] ++ QItem.eos :: [QItem.item ⟨60, none⟩ 11])
    (by decide) (by decide) (by decide)
  exact ⟨h.1, h.2.1⟩

/-!
## Event Bus channel (C9)

Modelled from the spec: the `Signal` publish/subscribe implementation is
the external `cookit` dependency, not part of this repository's sources,
so the channel is embedded from §4.2 of the spec.  A handler is a
function that either completes (`Except.ok ()`) or raises
(`Except.error e`); a publish dispatches every currently registered
handler independently and routes each failure to the channel's
error-isolation handler instead of re-raising.  `sigPublish` returns the
dispatch record: one entry per registered handler, carrying the handler's
index and `none` when it completed or `some e` when it raised `e` and the
error-isolation handler was invoked with `e` for it.  It is a total
function: publishing never raises to the publisher.
-/

def errOf {E : Type} : Except E Unit → Option E
  | Except.ok _ => none
  | Except.error e => some e

/-- Modelled from the spec: `Signal.task_gather` (publish) from the
external `cookit` dependency.  Dispatches every registered handler on the
argument, independently of the others, and records for each one whether
the error-isolation handler was invoked for it. -/
def sigPublish {α E : Type} (slots : List (α → Except E Unit)) (arg : α) :
    List (Nat × Option E) :=
  slots.enum.map (fun p => (p.1, errOf (p.2 arg)))

/-- C9: publishing on a channel with zero subscribers is a no-op (an
empty dispatch record: no handler runs, the error-isolation handler is
never invoked, nothing is raised — `sigPublish` is a total function);
every registered handler is dispatched exactly once regardless of the
others; each handler's dispatch outcome is a function of that handler
alone, so one raising handler never prevents another independently
registered handler from completing; and the error-isolation handler is
invoked exactly once per failing handler per publish. -/
theorem sigPublish_isolates {α E : Type}
    (slots : List (α → Except E Unit)) (arg : α) :
    sigPublish ([] : List (α → Except E Unit)) arg = [] ∧
    (sigPublish slots arg).length = slots.length ∧
    (∀ i (hi : i < slots.length),
      (sigPublish slots arg)[i]?
        = some (i, errOf (slots.get ⟨i, hi⟩ arg))) ∧
    ((sigPublish slots arg).filter (fun p => p.2.isSome)).length
      = ((slots.map (fun h => errOf (h arg))).filter Option.isSome).length
    := by
  refine ⟨rfl, by simp [sigPublish], ?_, ?_⟩
  · intro i hi
    simp [sigPublish, List.getElem?_map, List.getElem?_enum,
      List.getElem?_eq_getElem hi]
  · rw [← List.countP_eq_length_filter, ← List.countP_eq_length_filter,
      sigPublish, List.countP_map, List.countP_map]
    conv_rhs => rw [← List.enum_map_snd slots]
    rw [List.countP_map]
    rfl

/-- Witness for C9: two subscribers, the first raises with error `7`, the
second completes; both entries appear in the dispatch record and the
error-isolation handler fires once. -/
theorem sigPublish_isolates_witness :
    (sigPublish
      [fun _ : Nat => (Except.error 7 : Except Nat Unit),
       fun _ : Nat => Except.ok ()] 3)[1]?
      = some (1, none) ∧
    ((sigPublish
      [fun _ : Nat => (Except.error 7 : Except Nat Unit),
       fun _ : Nat => Except.ok ()] 3).filter
        (fun p => p.2.isSome)).length = 1 := by
  have h := sigPublish_isolates
    [fun _ : Nat => (Except.error 7 : Except Nat Unit),
     fun _ : Nat => Except.ok ()] 3
  exact ⟨h.2.2.1 1 (by simp), h.2.2.2⟩
